import Mathlib

/-!
Verification of the build-orchestration layer of `libfsntfs-sys`.

The repository consists of three Rust source files:

* `src/libfsntfs-sys/build.rs` — source acquisition (`download_libfsntfs`),
  a POSIX static build (`build_static`), dynamic linking (`link_dynamic`) and
  the coordinator (`main`);
* `src/libbfio-sys/build.rs` — a POSIX build pipeline (`build_lib`), a Windows
  build pipeline (the `cfg(target_os = "windows")` `build_lib`), the in-place
  header re-encoder (`utf16le_to_utf8`), the static/dynamic link wrappers and
  the coordinator (`main`);
* `src/common-build/src/windows.rs` — a second Windows build pipeline
  (`build_lib`) and the same header re-encoder.

The build scripts are straight-line effectful code: every external effect
(process spawning, filesystem existence checks, environment variables, the
network fetch, file contents) is mediated by an oracle recorded in a `World`
structure, and each embedded function returns the ordered trace of effects it
performed together with its result.  Rust's `Command::status()` returns `Err`
only when the process could not be *spawned*; a process that runs and exits
with a non-zero status yields `Ok(status)`, and `.expect(msg)` on that value
does not panic.  The embedding mirrors this exactly: a spawn oracle answers
either `SpawnResult.ok code` (the process ran, with any exit code) or
`SpawnResult.err kind` (the spawn itself failed), and `.expect` aborts only in
the `err` case.
-/

namespace LibyalBuild

/-- Kind of an `std::io::Error`, as far as the scripts inspect it
(`err.kind() == io::ErrorKind::NotFound` in `common-build/src/windows.rs`). -/
inductive ErrKind where
  | notFound
  | other
  deriving DecidableEq, Repr

/-- Result of `Command::status()`: `ok code` means the process was spawned and
exited with `code` (possibly non-zero); `err k` means spawning failed with an
`std::io::Error` of kind `k`. -/
inductive SpawnResult where
  | ok (code : Nat)
  | err (kind : ErrKind)
  deriving DecidableEq, Repr

/-- One observable external effect of a build script, in the order issued. -/
inductive BuildEvent where
  /-- An external process invocation (`Command::new(program).args(args)` with
  `current_dir(cwd)`). -/
  | proc (program : String) (args : List String) (cwd : String)
  /-- An HTTP fetch (`reqwest::get(url)`). -/
  | fetch (url : String)
  /-- A `std::fs::remove_dir_all(path)` request. -/
  | removeDir (path : String)
  /-- A `println!` line (cargo directives and progress messages). -/
  | stdoutLine (line : String)
  /-- A `bindgen::Builder ... .generate()` invocation with its clang args and
  input header. -/
  | genBindings (clangArgs : List String) (header : String)
  /-- `bindings.write_to_file(path)`. -/
  | writeBindingsFile (path : String)
  /-- An application of `utf16le_to_utf8` to `path`. -/
  | sanitizeFile (path : String)
  deriving DecidableEq, Repr

/-- `PathBuf::join`, restricted to the single separator used by the model. -/
def pjoin (a b : String) : String := a ++ "/" ++ b

/-- `Path::file_name()` of a path built with `pjoin`: the last segment. -/
def fileName (p : String) : String :=
  String.mk (p.data.foldl (fun acc c => if c = '/' then [] else acc ++ [c]) [])

/-- `Path::with_file_name(newName)`: replace the last segment. -/
def withFileName (p newName : String) : String :=
  String.mk ((p.data.reverse.dropWhile (· ≠ '/')).reverse) ++ newName

/-- Whether `pat` occurs in `l` (character-list substring search). -/
def containsSeg (pat : List Char) : List Char → Bool
  | [] => pat.isEmpty
  | c :: rest => pat.isPrefixOf (c :: rest) || containsSeg pat rest

/-- `str::contains(pat)` (substring containment). -/
def strContains (s pat : String) : Bool := containsSeg pat.data s.data

/-- `str::ends_with(pat)`. -/
def strEndsWith (s pat : String) : Bool := pat.data.isSuffixOf s.data

/-- Replace the leftmost non-overlapping occurrences of `pat` by `rep`
(`str::replace`). -/
def replaceSeg (pat rep : List Char) : List Char → List Char
  | [] => []
  | c :: rest =>
    if pat ≠ [] ∧ pat.isPrefixOf (c :: rest) then
      rep ++ replaceSeg pat rep ((c :: rest).drop pat.length)
    else c :: replaceSeg pat rep rest
termination_by l => l.length
decreasing_by
  · rename_i h
    simp only [List.length_drop, List.length_cons]
    have : pat.length ≠ 0 := by
      intro hz
      exact h.1 (List.eq_nil_of_length_eq_zero hz)
    omega
  · simp

/-- `str::replace(pat, rep)` on strings. -/
def strReplace (s pat rep : String) : String :=
  String.mk (replaceSeg pat.data rep.data s.data)

/-- Oracle for every external effect a build script can perform.  Each field
answers the corresponding Rust call; the build scripts never retry an effect,
so one answer per call site suffices. -/
structure World where
  /-- `env::var name`: `some v` when the variable is set. -/
  env : String → Option String
  /-- `env::current_dir()`. -/
  cwd : String
  /-- `Command::status()` for `(program, args, current_dir)`. -/
  spawn : String → List String → String → SpawnResult
  /-- `Path::exists()` for paths checked outside the acquirer's own
  filesystem state. -/
  fsExists : String → Bool
  /-- `Path::canonicalize()`: `some` on success. -/
  canonicalize : String → Option String
  /-- Whether `std::fs::remove_dir_all(vs2015)` succeeds. -/
  removeDirOk : Bool
  /-- Whether `cc::windows_registry::find(target, "msbuild")` finds msbuild. -/
  msbuildFound : Bool
  /-- Whether `reqwest::get` succeeds. -/
  fetchOk : Bool
  /-- The last path segment of the response URL (`None` when absent). -/
  urlLastSegment : Option String
  /-- Whether `File::create` of the downloaded archive succeeds. -/
  archiveCreateOk : Bool
  /-- Whether `io::copy(response, dest)` succeeds. -/
  copyOk : Bool
  /-- Whether re-opening the downloaded archive succeeds. -/
  archiveOpenOk : Bool
  /-- Whether `archive.unpack(temp)` succeeds. -/
  unpackOk : Bool
  /-- The set of paths the archive extraction creates. -/
  unpackAdds : List String
  /-- Whether `bindgen ... .generate()` succeeds. -/
  bindgenOk : Bool
  /-- Whether `bindings.write_to_file` succeeds. -/
  writeBindingsOk : Bool
  /-- `walkdir` entries under the `common-build` sanitization directories:
  `none` models an `Err` entry (whose `unwrap` panics). -/
  walkEntries : List (Option String)
  /-- Whether `read_to_string` on the transcoding reader fails with an
  I/O error for the given path. -/
  readFails : String → Bool
  /-- Whether `File::create(path)` (the truncating re-open) fails. -/
  createFails : String → Bool
  /-- Whether the subsequent `write` of the re-encoded bytes fails. -/
  writeFails : String → Bool

/-- Trace-and-result of a build-script fragment with no filesystem

mutation. -/
structure RunOut (α : Type) where
  trace : List BuildEvent
  result : Except String α
  deriving Repr

/-- Trace-and-result of a fragment that also threads the acquirer's
filesystem (path-existence) state. -/
structure FsOut (α : Type) where
  trace : List BuildEvent
  fs : String → Bool
  result : Except String α

/-- Trace-and-result of a fragment that also threads file contents
(path ↦ bytes). -/
structure FilesOut (α : Type) where
  trace : List BuildEvent
  files : String → Option (List Nat)
  result : Except String α

/-! ## Text encodings

`utf16le_to_utf8` (identical in `src/common-build/src/windows.rs` and
`src/libbfio-sys/build.rs`) decodes a file with
`encoding_rs_io::DecodeReaderBytesBuilder::new().encoding(Some(UTF_16LE))`
and rewrites it with `String::as_bytes` (UTF-8).  The two codecs are modelled
on byte lists; `encoding_rs` replaces malformed sequences by U+FFFD, so the
UTF-16LE decoder below is total. -/

/-- A Unicode scalar value: in range and not a surrogate. -/
def IsScalar (c : Nat) : Prop := c < 0x110000 ∧ (c < 0xD800 ∨ 0xE000 ≤ c)

instance (c : Nat) : Decidable (IsScalar c) := by unfold IsScalar; infer_instance

/-- UTF-16LE encoding of one scalar value. -/
def utf16leEncodeChar (c : Nat) : List Nat :=
  if c < 0x10000 then [c % 256, c / 256]
  else [(0xD800 + (c - 0x10000) / 0x400) % 256,
        (0xD800 + (c - 0x10000) / 0x400) / 256,
        (0xDC00 + (c - 0x10000) % 0x400) % 256,
        (0xDC00 + (c - 0x10000) % 0x400) / 256]

/-- UTF-16LE encoding of a scalar-value sequence. -/
def utf16leEncode (cs : List Nat) : List Nat := (cs.map utf16leEncodeChar).flatten

/-- Decode one scalar value from a UTF-16LE stream whose first unit is
`b0 + 256 * b1`, in the style of `encoding_rs`: surrogate pairs are combined
and every malformed unit (lone surrogate) becomes U+FFFD.  Returns the value
and the remaining bytes. -/
def utf16leDecodeOne (b0 b1 : Nat) (rest : List Nat) : Nat × List Nat :=
  if b0 + 256 * b1 < 0xD800 ∨ 0xE000 ≤ b0 + 256 * b1 then (b0 + 256 * b1, rest)
  else if b0 + 256 * b1 < 0xDC00 then
    match rest with
    | b2 :: b3 :: rest2 =>
      if 0xDC00 ≤ b2 + 256 * b3 ∧ b2 + 256 * b3 < 0xE000 then
        (0x10000 + (b0 + 256 * b1 - 0xD800) * 0x400 + (b2 + 256 * b3 - 0xDC00), rest2)
      else (0xFFFD, rest)
    | _ => (0xFFFD, rest)
  else (0xFFFD, rest)

/-- The one-unit decoder never lengthens the remaining stream. -/
theorem utf16leDecodeOne_len (b0 b1 : Nat) (rest : List Nat) :
    (utf16leDecodeOne b0 b1 rest).2.length ≤ rest.length := by
  unfold utf16leDecodeOne
  repeat' split
  all_goals simp_all
  omega

/-- Total UTF-16LE decoder in the style of `encoding_rs`: bytes are paired
little-endian, surrogate pairs combined, malformed input replaced by
U+FFFD (a trailing odd byte also becomes U+FFFD).  This is the BOM-agnostic
inner decoder; the reader-level BOM removal performed by
`new_decoder_with_bom_removal()` is modelled separately by
`stripUtf16leBom`, which the sanitizer applies first. -/
def utf16leDecode : List Nat → List Nat
  | [] => []
  | [_] => [0xFFFD]
  | b0 :: b1 :: rest =>
    (utf16leDecodeOne b0 b1 rest).1 :: utf16leDecode (utf16leDecodeOne b0 b1 rest).2
termination_by l => l.length
decreasing_by
  have := utf16leDecodeOne_len b0 b1 rest
  simp
  omega

/-- UTF-8 encoding of one scalar value. -/
def utf8EncodeChar (c : Nat) : List Nat :=
  if c < 0x80 then [c]
  else if c < 0x800 then [0xC0 + c / 64, 0x80 + c % 64]
  else if c < 0x10000 then [0xE0 + c / 4096, 0x80 + c / 64 % 64, 0x80 + c % 64]
  else [0xF0 + c / 262144, 0x80 + c / 4096 % 64, 0x80 + c / 64 % 64, 0x80 + c % 64]

/-- UTF-8 encoding of a scalar-value sequence. -/
def utf8Encode (cs : List Nat) : List Nat := (cs.map utf8EncodeChar).flatten

/-- Strict decode of one UTF-8 sequence with leading byte `b`: rejects
malformed, overlong and surrogate sequences.  Returns the scalar value and
the remaining bytes. -/
def utf8DecodeOne (b : Nat) (bs : List Nat) : Option (Nat × List Nat) :=
  if b < 0x80 then some (b, bs)
  else if b < 0xC0 then none
  else if b < 0xE0 then
    match bs with
    | b1 :: bs1 =>
      if (0x80 ≤ b1 ∧ b1 < 0xC0) ∧ 0x80 ≤ (b - 0xC0) * 64 + (b1 - 0x80) then
        some ((b - 0xC0) * 64 + (b1 - 0x80), bs1)
      else none
    | [] => none
  else if b < 0xF0 then
    match bs with
    | b1 :: b2 :: bs2 =>
      if ((0x80 ≤ b1 ∧ b1 < 0xC0) ∧ (0x80 ≤ b2 ∧ b2 < 0xC0)) ∧
          (0x800 ≤ (b - 0xE0) * 4096 + (b1 - 0x80) * 64 + (b2 - 0x80) ∧
            ((b - 0xE0) * 4096 + (b1 - 0x80) * 64 + (b2 - 0x80) < 0xD800 ∨
              0xE000 ≤ (b - 0xE0) * 4096 + (b1 - 0x80) * 64 + (b2 - 0x80))) then
        some ((b - 0xE0) * 4096 + (b1 - 0x80) * 64 + (b2 - 0x80), bs2)
      else none
    | _ => none
  else if b < 0xF8 then
    match bs with
    | b1 :: b2 :: b3 :: bs3 =>
      if ((0x80 ≤ b1 ∧ b1 < 0xC0) ∧ (0x80 ≤ b2 ∧ b2 < 0xC0) ∧
            (0x80 ≤ b3 ∧ b3 < 0xC0)) ∧
          (0x10000 ≤ (b - 0xF0) * 262144 + (b1 - 0x80) * 4096 +
              (b2 - 0x80) * 64 + (b3 - 0x80) ∧
            (b - 0xF0) * 262144 + (b1 - 0x80) * 4096 +
              (b2 - 0x80) * 64 + (b3 - 0x80) < 0x110000) then
        some ((b - 0xF0) * 262144 + (b1 - 0x80) * 4096 +
          (b2 - 0x80) * 64 + (b3 - 0x80), bs3)
      else none
    | _ => none
  else none

/-- Successful one-sequence decode never lengthens the remaining stream. -/
theorem utf8DecodeOne_len (b : Nat) (bs : List Nat) (c : Nat) (rest : List Nat)
    (h : utf8DecodeOne b bs = some (c, rest)) : rest.length ≤ bs.length := by
  unfold utf8DecodeOne at h
  repeat' split at h
  all_goals simp_all
  all_goals omega

/-- Strict UTF-8 decoder: `some` exactly when the whole byte list is valid
UTF-8, in which case it returns the scalar-value sequence. -/
def utf8Decode : List Nat → Option (List Nat)
  | [] => some []
  | b :: bs =>
    match h : utf8DecodeOne b bs with
    | none => none
    | some (c, rest) => (utf8Decode rest).map (c :: ·)
termination_by l => l.length
decreasing_by
  have := utf8DecodeOne_len b bs c rest h
  simp
  omega

/-! ## Header sanitizer

`utf16le_to_utf8` from `src/common-build/src/windows.rs` lines 131–148
(byte-for-byte identical in `src/libbfio-sys/build.rs` lines 176–193):
open the file, decode it as UTF-16LE into a `String`, then truncate the file
with `File::create` and write the string's UTF-8 bytes back.

The reader is built with
`DecodeReaderBytesBuilder::new().encoding(Some(UTF_16LE))`; with an explicit
encoding, `encoding_rs_io` constructs the decoder via
`new_decoder_with_bom_removal()`, so a leading `FF FE` byte-order mark
(matching the specified encoding) is stripped before decoding.  The model
separates the two layers the same way: `stripUtf16leBom` is the reader-level
BOM removal and `utf16leDecode` the BOM-agnostic inner decoder. -/

/-- Reader-level BOM removal of `new_decoder_with_bom_removal()` for
UTF-16LE: a leading `FF FE` is stripped; anything else is passed through. -/
def stripUtf16leBom : List Nat → List Nat
  | b0 :: (b1 :: rest) =>
    if b0 = 0xFF ∧ b1 = 0xFE then rest else b0 :: (b1 :: rest)
  | bs => bs

/-- Embedding of `utf16le_to_utf8(file_path)`.  Returns the updated file-
contents map and the `Result`.  `File::open` fails exactly when the path is
absent from `files`; `read_to_string`, `File::create` and `write` consult the
corresponding failure oracles.  A successful `File::create` truncates the
file before the write happens.  The decoded content is the UTF-16LE decode
of the bytes after reader-level BOM removal. -/
def utf16le_to_utf8 (w : World) (files : String → Option (List Nat))
    (file_path : String) : (String → Option (List Nat)) × Except String Unit :=
  match files file_path with
  | none => (files, .error "open failed")
  | some bytes =>
    if w.readFails file_path then (files, .error "read_to_string failed")
    else
      if w.createFails file_path then (files, .error "File create failed")
      else
        if w.writeFails file_path then
          (fun p => if p == file_path then some [] else files p,
           .error "write failed")
        else
          (fun p => if p == file_path then
                      some (utf8Encode (utf16leDecode (stripUtf16leBom bytes)))
                    else files p,
           .ok ())

/-! ## libfsntfs-sys build script (`src/libfsntfs-sys/build.rs`) -/

/-- `LIBFSNTFS_TAR_GZ_URL` from `src/libfsntfs-sys/build.rs` line 13. -/
def LIBFSNTFS_TAR_GZ_URL : String :=
  "https://github.com/libyal/libfsntfs/releases/download/20190104/libfsntfs-experimental-20190104.tar.gz"

/-- `LIBFSNTFS_EXPECTED_DIR_NAME` from `src/libfsntfs-sys/build.rs` line 14. -/
def LIBFSNTFS_EXPECTED_DIR_NAME : String := "libfsntfs-20190104"

/-- Embedding of `download_libfsntfs()` (`src/libfsntfs-sys/build.rs`
lines 16–54).  `fs` is the current path-existence state of the build
directory; the function threads it because the download and extraction create
paths that its own final existence check (and a later invocation) observes. -/
def download_libfsntfs (w : World) (fs : String → Bool) : FsOut String :=
  match w.env "OUT_DIR" with
  | none => ⟨[], fs, .error "OUT_DIR is not set"⟩
  | some temp =>
    if fs (pjoin temp LIBFSNTFS_EXPECTED_DIR_NAME) then
      ⟨[], fs, .ok (pjoin temp LIBFSNTFS_EXPECTED_DIR_NAME)⟩
    else
      let t : List BuildEvent :=
        [.stdoutLine ("Downloading libfsntfs: from '" ++ LIBFSNTFS_TAR_GZ_URL ++ "'"),
         .fetch LIBFSNTFS_TAR_GZ_URL]
      if w.fetchOk then
        if w.archiveCreateOk then
          let fname := pjoin temp (match w.urlLastSegment with
            | some n => if n = "" then "tmp.bin" else n
            | none => "tmp.bin")
          let fs1 : String → Bool := fun p => p == fname || fs p
          if w.copyOk then
            if w.archiveOpenOk then
              if w.unpackOk then
                let fs2 : String → Bool := fun p => w.unpackAdds.contains p || fs1 p
                if fs2 (pjoin temp LIBFSNTFS_EXPECTED_DIR_NAME) then
                  ⟨t, fs2, .ok (pjoin temp LIBFSNTFS_EXPECTED_DIR_NAME)⟩
                else
                  ⟨t, fs2, .error ("Expected to find `" ++ LIBFSNTFS_EXPECTED_DIR_NAME ++
                    "` at `" ++ temp ++ "`")⟩
              else ⟨t, fs1, .error "archive unpack failed"⟩
            else ⟨t, fs1, .error "archive open failed"⟩
          else ⟨t, fs1, .error "io copy failed"⟩
        else ⟨t, fs, .error "File create failed"⟩
      else ⟨t, fs, .error "reqwest get failed"⟩

/-- The tail of `build_static()` (`src/libfsntfs-sys/build.rs` lines 63–103)
after the source path `libfsntfs` has been resolved: configure, make,
make install, assert `dist/lib` exists, then emit the two cargo directives.
Every step uses `Command::status().expect(msg)`, which aborts only when the
spawn itself failed — a process that ran and exited non-zero continues. -/
def build_static_from (w : World) (fs : String → Bool) (t0 : List BuildEvent)
    (libfsntfs : String) : FsOut Unit :=
  let target := pjoin libfsntfs "dist"
  let t1 := t0 ++ [.stdoutLine ("building with prefix=" ++ target),
    .proc "sh" ["configure", "--enable-shared=no", "--prefix=" ++ target] libfsntfs]
  match w.spawn "sh" ["configure", "--enable-shared=no", "--prefix=" ++ target] libfsntfs with
  | .err _ => ⟨t1, fs, .error "configure failed"⟩
  | .ok _ =>
    let t2 := t1 ++ [.proc "make" [] libfsntfs]
    match w.spawn "make" [] libfsntfs with
    | .err _ => ⟨t2, fs, .error "make failed"⟩
    | .ok _ =>
      let t3 := t2 ++ [.proc "make" ["install"] libfsntfs]
      match w.spawn "make" ["install"] libfsntfs with
      | .err _ => ⟨t3, fs, .error "make install failed"⟩
      | .ok _ =>
        if fs (pjoin target "lib") then
          let t4 := t3 ++ [.stdoutLine "cargo:rustc-link-lib=static=fsntfs"]
          match w.canonicalize (pjoin target "lib") with
          | none => ⟨t4, fs, .error "canonicalize failed"⟩
          | some canon =>
            ⟨t4 ++ [.stdoutLine ("cargo:rustc-link-search=native=" ++ canon)],
             fs, .ok ()⟩
        else
          ⟨t3, fs, .error ("Expected " ++ pjoin target "lib" ++ " to exist")⟩

/-- Embedding of `build_static()` (`src/libfsntfs-sys/build.rs` lines 56–103):
resolve the source tree from `LIBFSNTFS_STATIC_LIBPATH` or by downloading,
then run the POSIX pipeline. -/
def build_static (w : World) (fs : String → Bool) : FsOut Unit :=
  match w.env "LIBFSNTFS_STATIC_LIBPATH" with
  | some local_install => build_static_from w fs [] local_install
  | none =>
    match download_libfsntfs w fs with
    | ⟨t, fs1, .error _⟩ => ⟨t, fs1, .error "Failed to download libfsntfs"⟩
    | ⟨t, fs1, .ok libfsntfs⟩ => build_static_from w fs1 t libfsntfs

/-- Embedding of `link_dynamic()` (`src/libfsntfs-sys/build.rs`
lines 105–114). -/
def link_dynamic (w : World) (fs : String → Bool) : RunOut Unit :=
  match w.env "LIBFSNTFS_DYNAMIC_LIBPATH" with
  | some location =>
    if fs location then
      ⟨[.stdoutLine ("cargo:rustc-link-search=native=" ++ location),
        .stdoutLine "cargo:rustc-link-lib=dylib=fsntfs"], .ok ()⟩
    else
      ⟨[], .error "path passed in LIBFSNTFS_DYNAMIC_LIBPATH does not exist!"⟩
  | none => ⟨[.stdoutLine "cargo:rustc-link-lib=dylib=fsntfs"], .ok ()⟩

/-- The clang include arguments hard-coded in `src/libfsntfs-sys/build.rs`
lines 124–130. -/
def fsntfsClangArgs : List String :=
  ["-Ilibfsntfs", "-Ilibfsntfs/common", "-Ilibfsntfs/include",
   "-Ilibfsntfs/common", "-Ilibfsntfs/libcerror"]

/-- Embedding of `main()` (`src/libfsntfs-sys/build.rs` lines 116–150).
`features` is the set of enabled cargo features (`cfg!(feature = ...)`).
The script generates and writes the bindings first, then branches on the
`dynamic_link` feature: enabled runs `build_static()`, disabled runs
`link_dynamic()`. -/
def libfsntfs_main (w : World) (fs : String → Bool) (features : List String) :
    FsOut Unit :=
  let t0 : List BuildEvent := [.genBindings fsntfsClangArgs "wrapper.h"]
  if w.bindgenOk then
    match w.env "OUT_DIR" with
    | none => ⟨t0, fs, .error "OUT_DIR is not set"⟩
    | some out_dir =>
      let t1 := t0 ++ [.writeBindingsFile (pjoin out_dir "bindings.rs")]
      if w.writeBindingsOk then
        if features.contains "dynamic_link" then
          let r := build_static w fs
          ⟨t1 ++ [.stdoutLine "Building static bindings"] ++ r.trace, r.fs, r.result⟩
        else
          let r := link_dynamic w fs
          ⟨t1 ++ [.stdoutLine "Building dynamic bindings"] ++ r.trace, fs, r.result⟩
      else ⟨t1, fs, .error "Couldn't write bindings!"⟩
  else ⟨t0, fs, .error "Unable to generate bindings"⟩

/-! ## libbfio-sys build script, POSIX side (`src/libbfio-sys/build.rs`) -/

/-- Embedding of the POSIX `build_lib(lib_path, shared)`
(`src/libbfio-sys/build.rs` lines 14–78): synclibs, autogen, configure
(with `--enable-shared=no` exactly when `shared` is false), make,
make install, assert `dist/lib` exists, emit the link-search directive and
return `dist/include`.  As in the source, each step's exit code is ignored;
only a failed spawn aborts. -/
def bfio_build_lib (w : World) (lib_path : String) (shared : Bool) :
    RunOut String :=
  let target := pjoin lib_path "dist"
  let t1 := [BuildEvent.stdoutLine ("building with prefix=" ++ target),
    .proc "sh" ["synclibs.sh"] lib_path]
  match w.spawn "sh" ["synclibs.sh"] lib_path with
  | .err _ => ⟨t1, .error "synclibs failed"⟩
  | .ok _ =>
    let t2 := t1 ++ [.proc "sh" ["autogen.sh"] lib_path]
    match w.spawn "sh" ["autogen.sh"] lib_path with
    | .err _ => ⟨t2, .error "autogen failed"⟩
    | .ok _ =>
      let configureArgs := ["configure", "--prefix=" ++ target] ++
        (if shared then [] else ["--enable-shared=no"])
      let t3 := t2 ++ [.proc "sh" configureArgs lib_path]
      match w.spawn "sh" configureArgs lib_path with
      | .err _ => ⟨t3, .error "configure failed"⟩
      | .ok _ =>
        let t4 := t3 ++ [.proc "make" [] lib_path]
        match w.spawn "make" [] lib_path with
        | .err _ => ⟨t4, .error "make failed"⟩
        | .ok _ =>
          let t5 := t4 ++ [.proc "make" ["install"] lib_path]
          match w.spawn "make" ["install"] lib_path with
          | .err _ => ⟨t5, .error "make install failed"⟩
          | .ok _ =>
            if w.fsExists (pjoin target "lib") then
              match w.canonicalize (pjoin target "lib") with
              | none => ⟨t5, .error "canonicalize failed"⟩
              | some canon =>
                ⟨t5 ++ [.stdoutLine ("cargo:rustc-link-search=native=" ++ canon)],
                 .ok (pjoin target "include")⟩
            else ⟨t5, .error ("Expected " ++ pjoin target "lib" ++ " to exist")⟩

/-- The source path used by `build_and_link_static()`
(`src/libbfio-sys/build.rs` lines 196–200): the `LIBBFIO_STATIC_LIBPATH`
override, else `current_dir()/libbfio`. -/
def bfio_static_path (w : World) : String :=
  match w.env "LIBBFIO_STATIC_LIBPATH" with
  | some local_install => local_install
  | none => pjoin w.cwd "libbfio"

/-- The source path used by `build_and_link_dynamic()`
(`src/libbfio-sys/build.rs` lines 217–221). -/
def bfio_dynamic_path (w : World) : String :=
  match w.env "LIBBFIO_DYNAMIC_LIBPATH" with
  | some local_install => local_install
  | none => pjoin w.cwd "libbfio"

/-- Embedding of `build_and_link_static()` (`src/libbfio-sys/build.rs`
lines 195–214), non-Windows branch of the `cfg!` check: emit
`static=bfio` and run `build_lib(libbfio, false)`. -/
def bfio_build_and_link_static (w : World) : RunOut String :=
  let r := bfio_build_lib w (bfio_static_path w) false
  ⟨BuildEvent.stdoutLine "cargo:rustc-link-lib=static=bfio" :: r.trace, r.result⟩

/-- Embedding of `build_and_link_dynamic()` (`src/libbfio-sys/build.rs`
lines 216–230), non-Windows branch: emit `dylib=bfio` and run
`build_lib(libbfio, true)`. -/
def bfio_build_and_link_dynamic (w : World) : RunOut String :=
  let r := bfio_build_lib w (bfio_dynamic_path w) true
  ⟨BuildEvent.stdoutLine "cargo:rustc-link-lib=dylib=bfio" :: r.trace, r.result⟩

/-- Embedding of `main()` (`src/libbfio-sys/build.rs` lines 232–260):
branch on the `static_link` feature, build and link, then generate bindings
with `-I<include dir>` and write them to `$OUT_DIR/bindings.rs`. -/
def bfio_main (w : World) (features : List String) : RunOut Unit :=
  let pre : RunOut String :=
    if features.contains "static_link" then
      let r := bfio_build_and_link_static w
      ⟨BuildEvent.stdoutLine "Building static bindings" :: r.trace, r.result⟩
    else
      let r := bfio_build_and_link_dynamic w
      ⟨BuildEvent.stdoutLine "Building dynamic bindings" :: r.trace, r.result⟩
  match pre.result with
  | .error e => ⟨pre.trace, .error e⟩
  | .ok include_folder_path =>
    let t1 := pre.trace ++
      [.genBindings ["-I" ++ include_folder_path] "wrapper.h"]
    if w.bindgenOk then
      match w.env "OUT_DIR" with
      | none => ⟨t1, .error "OUT_DIR is not set"⟩
      | some out_dir =>
        let t2 := t1 ++ [.writeBindingsFile (pjoin out_dir "bindings.rs")]
        if w.writeBindingsOk then ⟨t2, .ok ()⟩
        else ⟨t2, .error "Couldn't write bindings!"⟩
    else ⟨t1, .error "Unable to generate bindings"⟩

/-! ## Windows pipelines

`src/libbfio-sys/build.rs` lines 80–173 (`cfg(target_os = "windows")`
`build_lib`) and `src/common-build/src/windows.rs` lines 13–129 (`build_lib`)
are two variants of the same pipeline.  They differ in exactly the places the
claims are about: the environment variable read for the python override
(`"PYTHON_SYS_EXECUTABLE "` with a trailing space vs
`"PYTHON_SYS_EXECUTABLE"`), the treatment of `remove_dir_all` (`.unwrap()`
vs `let _ =`), the converter-spawn error handling (one generic `.expect`
message vs a `match` distinguishing `ErrorKind::NotFound`), one msbuild flag
spelling, and the selection of headers to sanitize (a fixed list vs a
`walkdir` scan for `.h.in` siblings). -/

/-- `{:?}` rendering of an `std::io::Error`, abstracted to its kind. -/
def ioErrDebug : ErrKind → String
  | .notFound => "kind: NotFound"
  | .other => "kind: Other"

/-- Apply `utf16le_to_utf8(..).unwrap()` to each path in order, stopping at
the first failure (the `.unwrap()` panic). -/
def sanitizeAll (w : World) (files : String → Option (List Nat)) :
    List String → FilesOut Unit
  | [] => ⟨[], files, .ok ()⟩
  | p :: ps =>
    match utf16le_to_utf8 w files p with
    | (files1, .ok ()) =>
      let r := sanitizeAll w files1 ps
      ⟨BuildEvent.sanitizeFile p :: r.trace, r.files, r.result⟩
    | (files1, .error e) => ⟨[BuildEvent.sanitizeFile p], files1, .error e⟩

/-- The `walkdir` loop of `src/common-build/src/windows.rs` lines 112–124:
for each directory entry (`none` models an `Err` entry, whose `unwrap`
panics), when the file name ends in `.h.in`, sanitize the sibling `.h`
file. -/
def sanitizeWalk (w : World) (files : String → Option (List Nat)) :
    List (Option String) → FilesOut Unit
  | [] => ⟨[], files, .ok ()⟩
  | none :: _ => ⟨[], files, .error "walkdir entry failed"⟩
  | some fp :: rest =>
    if strEndsWith (fileName fp) ".h.in" then
      match utf16le_to_utf8 w files
          (withFileName fp (strReplace (fileName fp) ".h.in" ".h")) with
      | (files1, .ok ()) =>
        let r := sanitizeWalk w files1 rest
        ⟨BuildEvent.sanitizeFile
            (withFileName fp (strReplace (fileName fp) ".h.in" ".h")) :: r.trace,
         r.files, r.result⟩
      | (files1, .error e) =>
        ⟨[BuildEvent.sanitizeFile
            (withFileName fp (strReplace (fileName fp) ".h.in" ".h"))],
         files1, .error e⟩
    else sanitizeWalk w files rest

/-- The converter-invocation arguments
(`msvscpp-convert.py`, both Windows pipelines). -/
def convertArgs (lib_name : String) : List String :=
  ["..\\..\\vstools\\scripts\\msvscpp-convert.py", "--extend-with-x64",
   "--output-format", "2015", "msvscpp\\" ++ lib_name ++ ".sln"]

/-- Embedding of the `cfg(target_os = "windows")` `build_lib(lib_path,
shared)` of `src/libbfio-sys/build.rs` lines 81–173.  Note: the python
override is read from the misspelled variable `"PYTHON_SYS_EXECUTABLE "`
(trailing space), `remove_dir_all(vs2015)` is `.unwrap()`ed, and every
converter spawn failure produces the same `.expect` message. -/
def bfio_build_lib_windows (w : World) (files : String → Option (List Nat))
    (lib_path : String) (shared : Bool) : FilesOut String :=
  let python_exec := (w.env "PYTHON_SYS_EXECUTABLE ").getD "python.exe"
  let t1 := [BuildEvent.proc "powershell" ["-File", "synclibs.ps1"] lib_path]
  match w.spawn "powershell" ["-File", "synclibs.ps1"] lib_path with
  | .err _ => ⟨t1, files, .error "synclibs failed"⟩
  | .ok _ =>
    let t2 := t1 ++ [.proc "powershell" ["-File", "autogen.ps1"] lib_path]
    match w.spawn "powershell" ["-File", "autogen.ps1"] lib_path with
    | .err _ => ⟨t2, files, .error "autogen failed"⟩
    | .ok _ =>
      let t3 := t2 ++ [.removeDir (pjoin lib_path "vs2015")]
      if w.removeDirOk then
        let lib_name := fileName lib_path
        let t4 := t3 ++ [.proc python_exec (convertArgs lib_name) lib_path]
        match w.spawn python_exec (convertArgs lib_name) lib_path with
        | .err _ =>
          ⟨t4, files, .error ("Converting the solution failed. You might need to set " ++
            "PYTHON_SYS_EXECUTABLE to a working python interpreter")⟩
        | .ok _ =>
          match w.env "TARGET" with
          | none => ⟨t4, files, .error "TARGET is not set"⟩
          | some target =>
            if w.msbuildFound then
              let msbuild_platform := if strContains target "x86_64" then "x64" else "Win32"
              let msbuildArgs := ["vs2015\\" ++ lib_name ++ ".sln",
                  "/property:PlatformToolset=v141",
                  "/p:Platform=" ++ msbuild_platform] ++
                (if shared then [] else ["/p:ConfigurationType=StaticLibrary"])
              let t5 := t4 ++ [.proc "msbuild" msbuildArgs lib_path]
              match w.spawn "msbuild" msbuildArgs lib_path with
              | .err _ => ⟨t5, files, .error "Building the solution failed"⟩
              | .ok _ =>
                let build_dir :=
                  pjoin (pjoin (pjoin lib_path "vs2015") "Release") msbuild_platform
                if w.fsExists build_dir then
                  let t6 := t5 ++
                    [.stdoutLine ("cargo:rustc-link-search=native=" ++ build_dir)]
                  let include_folder_path := pjoin lib_path "include"
                  let r := sanitizeAll w files
                    [pjoin include_folder_path (lib_name ++ ".h"),
                     pjoin (pjoin lib_path "common") "types.h",
                     pjoin (pjoin include_folder_path lib_name) "definitions.h",
                     pjoin (pjoin include_folder_path lib_name) "features.h",
                     pjoin (pjoin include_folder_path lib_name) "types.h"]
                  match r.result with
                  | .error e => ⟨t6 ++ r.trace, r.files, .error e⟩
                  | .ok () => ⟨t6 ++ r.trace, r.files, .ok include_folder_path⟩
                else ⟨t5, files, .error ("Expected " ++ build_dir ++ " to exist")⟩
            else ⟨t4, files, .error "Needs msbuild installed"⟩
      else ⟨t3, files, .error "remove_dir_all(vs2015) unwrap failed"⟩

/-- Embedding of `build_lib(lib_path, shared)` from
`src/common-build/src/windows.rs` lines 13–129. -/
def common_build_lib (w : World) (files : String → Option (List Nat))
    (lib_path : String) (shared : Bool) : FilesOut String :=
  let python_exec := (w.env "PYTHON_SYS_EXECUTABLE").getD "python.exe"
  let t1 := [BuildEvent.proc "powershell" ["-File", "synclibs.ps1"] lib_path]
  match w.spawn "powershell" ["-File", "synclibs.ps1"] lib_path with
  | .err _ => ⟨t1, files, .error "synclibs failed"⟩
  | .ok _ =>
    let t2 := t1 ++ [.proc "powershell" ["-File", "autogen.ps1"] lib_path]
    match w.spawn "powershell" ["-File", "autogen.ps1"] lib_path with
    | .err _ => ⟨t2, files, .error "autogen failed"⟩
    | .ok _ =>
      let t3 := t2 ++ [.removeDir (pjoin lib_path "vs2015")]
      let lib_name := fileName lib_path
      let t4 := t3 ++ [.proc python_exec (convertArgs lib_name) lib_path]
      match w.spawn python_exec (convertArgs lib_name) lib_path with
      | .err kind =>
        if kind = .notFound then
          ⟨t4, files, .error ("Could not find python at " ++ python_exec ++
            ", You might need to set PYTHON_SYS_EXECUTABLE: " ++ ioErrDebug kind)⟩
        else
          ⟨t4, files, .error ("Failed to convert the solution: " ++ ioErrDebug kind)⟩
      | .ok _ =>
        match w.env "TARGET" with
        | none => ⟨t4, files, .error "TARGET is not set"⟩
        | some target =>
          if w.msbuildFound then
            let msbuild_platform := if strContains target "x86_64" then "x64" else "Win32"
            let msbuildArgs := ["vs2015\\" ++ lib_name ++ ".sln",
                "/p:PlatformToolset=v141",
                "/p:Platform=" ++ msbuild_platform] ++
              (if shared then [] else ["/p:ConfigurationType=StaticLibrary"])
            let t5 := t4 ++ [.proc "msbuild" msbuildArgs lib_path]
            match w.spawn "msbuild" msbuildArgs lib_path with
            | .err _ => ⟨t5, files, .error "Building the solution failed"⟩
            | .ok _ =>
              let build_dir :=
                pjoin (pjoin (pjoin lib_path "vs2015") "Release") msbuild_platform
              if w.fsExists build_dir then
                let t6 := t5 ++
                  [.stdoutLine ("cargo:rustc-link-search=native=" ++ build_dir)]
                let r := sanitizeWalk w files w.walkEntries
                match r.result with
                | .error e => ⟨t6 ++ r.trace, r.files, .error e⟩
                | .ok () => ⟨t6 ++ r.trace, r.files, .ok (pjoin lib_path "include")⟩
              else ⟨t5, files, .error ("Expected " ++ build_dir ++ " to exist")⟩
          else ⟨t4, files, .error "Needs msbuild installed"⟩

/-! ## Codec roundtrip lemmas -/

/-- Unfolding lemma for `utf16leDecode` on a stream with a known one-unit
decode. -/
theorem utf16leDecode_cons (b0 b1 : Nat) (rest : List Nat) (c : Nat)
    (rest' : List Nat) (h : utf16leDecodeOne b0 b1 rest = (c, rest')) :
    utf16leDecode (b0 :: b1 :: rest) = c :: utf16leDecode rest' := by
  simp only [utf16leDecode]
  rw [h]

/-- One-unit decode of a UTF-16LE-encoded BMP scalar value. -/
theorem utf16leDecodeOne_bmp (c : Nat) (h1 : c < 0x10000)
    (hsur : c < 0xD800 ∨ 0xE000 ≤ c) (bs : List Nat) :
    utf16leDecodeOne (c % 256) (c / 256) bs = (c, bs) := by
  unfold utf16leDecodeOne
  have hc : c % 256 + 256 * (c / 256) = c := by omega
  rw [hc, if_pos hsur]

/-- One-unit decode of a UTF-16LE surrogate pair. -/
theorem utf16leDecodeOne_supp (c : Nat) (hlt : c < 0x110000)
    (h1 : 0x10000 ≤ c) (bs : List Nat) :
    utf16leDecodeOne ((0xD800 + (c - 0x10000) / 0x400) % 256)
      ((0xD800 + (c - 0x10000) / 0x400) / 256)
      ((0xDC00 + (c - 0x10000) % 0x400) % 256 ::
        ((0xDC00 + (c - 0x10000) % 0x400) / 256 :: bs)) = (c, bs) := by
  unfold utf16leDecodeOne
  have hhi : (0xD800 + (c - 0x10000) / 0x400) % 256 +
      256 * ((0xD800 + (c - 0x10000) / 0x400) / 256) =
      0xD800 + (c - 0x10000) / 0x400 := by omega
  have hlo : (0xDC00 + (c - 0x10000) % 0x400) % 256 +
      256 * ((0xDC00 + (c - 0x10000) % 0x400) / 256) =
      0xDC00 + (c - 0x10000) % 0x400 := by omega
  rw [hhi]
  rw [if_neg (by omega), if_pos (by omega)]
  dsimp only
  rw [hlo, if_pos (by omega)]
  simp only [Prod.mk.injEq]
  exact ⟨by omega, trivial⟩

/-- Decoding a UTF-16LE-encoded scalar value from the head of a byte stream
recovers the value and continues with the remaining bytes. -/
theorem utf16leDecode_encodeChar_append (c : Nat) (h : IsScalar c)
    (bs : List Nat) :
    utf16leDecode (utf16leEncodeChar c ++ bs) = c :: utf16leDecode bs := by
  obtain ⟨hlt, hsur⟩ := h
  by_cases h1 : c < 0x10000
  · have e : utf16leEncodeChar c ++ bs = c % 256 :: (c / 256 :: bs) := by
      unfold utf16leEncodeChar; rw [if_pos h1]; rfl
    rw [e, utf16leDecode_cons _ _ _ c bs (utf16leDecodeOne_bmp c h1 hsur bs)]
  · have e : utf16leEncodeChar c ++ bs =
        (0xD800 + (c - 0x10000) / 0x400) % 256 ::
          ((0xD800 + (c - 0x10000) / 0x400) / 256 ::
            ((0xDC00 + (c - 0x10000) % 0x400) % 256 ::
              ((0xDC00 + (c - 0x10000) % 0x400) / 256 :: bs))) := by
      unfold utf16leEncodeChar; rw [if_neg h1]; rfl
    rw [e, utf16leDecode_cons _ _ _ c bs
      (utf16leDecodeOne_supp c hlt (by omega) bs)]

/-- UTF-16LE roundtrip on scalar-value sequences. -/
theorem utf16leDecode_encode (cs : List Nat) (h : ∀ c ∈ cs, IsScalar c) :
    utf16leDecode (utf16leEncode cs) = cs := by
  induction cs with
  | nil => simp [utf16leEncode, utf16leDecode]
  | cons c cs ih =>
    have e : utf16leEncode (c :: cs) = utf16leEncodeChar c ++ utf16leEncode cs := by
      simp [utf16leEncode]
    rw [e, utf16leDecode_encodeChar_append c (h c (List.mem_cons_self c cs)),
      ih (fun x hx => h x (List.mem_cons_of_mem c hx))]

/-- Unfolding lemma for `utf8Decode` on a stream with a known one-sequence
decode. -/
theorem utf8Decode_cons (b : Nat) (bs : List Nat) (c : Nat) (rest : List Nat)
    (h : utf8DecodeOne b bs = some (c, rest)) :
    utf8Decode (b :: bs) = (utf8Decode rest).map (c :: ·) := by
  simp only [utf8Decode]
  split
  · next heq => rw [heq] at h; cases h
  · next c' rest' heq =>
    rw [heq] at h
    simp only [Option.some.injEq, Prod.mk.injEq] at h
    rw [h.1, h.2]

/-- One-sequence decode of a one-byte UTF-8 encoding. -/
theorem utf8DecodeOne_enc1 (c : Nat) (h1 : c < 0x80) (bs : List Nat) :
    utf8DecodeOne c bs = some (c, bs) := by
  unfold utf8DecodeOne; rw [if_pos h1]

/-- One-sequence decode of a two-byte UTF-8 encoding. -/
theorem utf8DecodeOne_enc2 (c : Nat) (h1 : 0x80 ≤ c) (h2 : c < 0x800)
    (bs : List Nat) :
    utf8DecodeOne (0xC0 + c / 64) ((0x80 + c % 64) :: bs) = some (c, bs) := by
  unfold utf8DecodeOne
  rw [if_neg (by omega), if_neg (by omega), if_pos (by omega)]
  dsimp only
  rw [if_pos (by omega)]
  simp only [Option.some.injEq, Prod.mk.injEq]
  exact ⟨by omega, trivial⟩

/-- One-sequence decode of a three-byte UTF-8 encoding. -/
theorem utf8DecodeOne_enc3 (c : Nat) (h2 : 0x800 ≤ c) (h3 : c < 0x10000)
    (hsur : c < 0xD800 ∨ 0xE000 ≤ c) (bs : List Nat) :
    utf8DecodeOne (0xE0 + c / 4096) ((0x80 + c / 64 % 64) :: ((0x80 + c % 64) :: bs)) =
      some (c, bs) := by
  unfold utf8DecodeOne
  rw [if_neg (by omega), if_neg (by omega), if_neg (by omega), if_pos (by omega)]
  dsimp only
  rw [if_pos (by omega)]
  simp only [Option.some.injEq, Prod.mk.injEq]
  exact ⟨by omega, trivial⟩

/-- One-sequence decode of a four-byte UTF-8 encoding. -/
theorem utf8DecodeOne_enc4 (c : Nat) (h3 : 0x10000 ≤ c) (hlt : c < 0x110000)
    (bs : List Nat) :
    utf8DecodeOne (0xF0 + c / 262144)
      ((0x80 + c / 4096 % 64) :: ((0x80 + c / 64 % 64) :: ((0x80 + c % 64) :: bs))) =
      some (c, bs) := by
  unfold utf8DecodeOne
  rw [if_neg (by omega), if_neg (by omega), if_neg (by omega),
    if_neg (by omega), if_pos (by omega)]
  dsimp only
  rw [if_pos (by omega)]
  simp only [Option.some.injEq, Prod.mk.injEq]
  exact ⟨by omega, trivial⟩

/-- Decoding a UTF-8-encoded scalar value from the head of a byte stream
recovers the value and continues with the remaining bytes. -/
theorem utf8Decode_encodeChar_append (c : Nat) (h : IsScalar c) (bs : List Nat) :
    utf8Decode (utf8EncodeChar c ++ bs) = (utf8Decode bs).map (c :: ·) := by
  obtain ⟨hlt, hsur⟩ := h
  by_cases h1 : c < 0x80
  · have e : utf8EncodeChar c ++ bs = c :: bs := by
      unfold utf8EncodeChar; rw [if_pos h1]; rfl
    rw [e, utf8Decode_cons _ _ c bs (utf8DecodeOne_enc1 c h1 bs)]
  · by_cases h2 : c < 0x800
    · have e : utf8EncodeChar c ++ bs = (0xC0 + c / 64) :: ((0x80 + c % 64) :: bs) := by
        unfold utf8EncodeChar; rw [if_neg h1, if_pos h2]; rfl
      rw [e, utf8Decode_cons _ _ c bs (utf8DecodeOne_enc2 c (by omega) h2 bs)]
    · by_cases h3 : c < 0x10000
      · have e : utf8EncodeChar c ++ bs =
            (0xE0 + c / 4096) :: ((0x80 + c / 64 % 64) :: ((0x80 + c % 64) :: bs)) := by
          unfold utf8EncodeChar; rw [if_neg h1, if_neg h2, if_pos h3]; rfl
        rw [e, utf8Decode_cons _ _ c bs
          (utf8DecodeOne_enc3 c (by omega) h3 hsur bs)]
      · have e : utf8EncodeChar c ++ bs =
            (0xF0 + c / 262144) :: ((0x80 + c / 4096 % 64) ::
              ((0x80 + c / 64 % 64) :: ((0x80 + c % 64) :: bs))) := by
          unfold utf8EncodeChar; rw [if_neg h1, if_neg h2, if_neg h3]; rfl
        rw [e, utf8Decode_cons _ _ c bs
          (utf8DecodeOne_enc4 c (by omega) hlt bs)]

/-- UTF-8 roundtrip on scalar-value sequences: re-reading the sanitizer's
output as UTF-8 succeeds and yields the original characters. -/
theorem utf8Decode_encode (cs : List Nat) (h : ∀ c ∈ cs, IsScalar c) :
    utf8Decode (utf8Encode cs) = some cs := by
  induction cs with
  | nil => simp [utf8Encode, utf8Decode]
  | cons c cs ih =>
    have e : utf8Encode (c :: cs) = utf8EncodeChar c ++ utf8Encode cs := by
      simp [utf8Encode]
    rw [e, utf8Decode_encodeChar_append c (h c (List.mem_cons_self c cs)),
      ih (fun x hx => h x (List.mem_cons_of_mem c hx))]
    rfl

/-- Reader-level BOM removal strips a leading `FF FE`. -/
theorem stripUtf16leBom_bom (r : List Nat) :
    stripUtf16leBom (0xFF :: (0xFE :: r)) = r := by
  simp [stripUtf16leBom]

/-- A BOM-less UTF-16LE encoding passes through BOM removal unchanged,
provided the first character is not U+FEFF (whose encoding coincides with
the BOM bytes). -/
theorem stripUtf16leBom_encode (cs : List Nat) (hsc : ∀ c ∈ cs, IsScalar c)
    (hhead : cs.head? ≠ some 0xFEFF) :
    stripUtf16leBom (utf16leEncode cs) = utf16leEncode cs := by
  cases cs with
  | nil => rfl
  | cons c rest =>
    obtain ⟨hlt, _⟩ := hsc c (List.mem_cons_self c rest)
    have hne : c ≠ 0xFEFF := by
      intro hh
      exact hhead (by simp [hh])
    have e : utf16leEncode (c :: rest) = utf16leEncodeChar c ++ utf16leEncode rest := by
      simp [utf16leEncode]
    rw [e]
    by_cases h1 : c < 0x10000
    · have ec : utf16leEncodeChar c = [c % 256, c / 256] := by
        unfold utf16leEncodeChar; rw [if_pos h1]
      rw [ec]
      show stripUtf16leBom (c % 256 :: (c / 256 :: utf16leEncode rest)) = _
      simp only [stripUtf16leBom]
      rw [if_neg (by omega)]
      rfl
    · have ec : utf16leEncodeChar c =
          [(0xD800 + (c - 0x10000) / 0x400) % 256,
           (0xD800 + (c - 0x10000) / 0x400) / 256,
           (0xDC00 + (c - 0x10000) % 0x400) % 256,
           (0xDC00 + (c - 0x10000) % 0x400) / 256] := by
        unfold utf16leEncodeChar; rw [if_neg h1]
      rw [ec]
      show stripUtf16leBom ((0xD800 + (c - 0x10000) / 0x400) % 256 ::
        ((0xD800 + (c - 0x10000) / 0x400) / 256 ::
          ((0xDC00 + (c - 0x10000) % 0x400) % 256 ::
            ((0xDC00 + (c - 0x10000) % 0x400) / 256 :: utf16leEncode rest)))) = _
      simp only [stripUtf16leBom]
      rw [if_neg (by omega)]
      rfl

/-- The first character of a string starting with a known cons-shaped
character list, after appending anything. -/
theorem head_of_append (c : Char) (l : List Char) (p s : String)
    (hp : p.data = c :: l) : (p ++ s).data.head? = some c := by
  obtain ⟨lp⟩ := p
  obtain ⟨ls⟩ := s
  cases hp
  rfl

/-- Two strings whose concrete leading characters differ are unequal,
whatever is appended to each. -/
theorem string_append_head_ne (c1 c2 : Char) (l1 l2 : List Char)
    (p1 p2 s1 s2 : String) (h1 : p1.data = c1 :: l1) (h2 : p2.data = c2 :: l2)
    (hne : c1 ≠ c2) : p1 ++ s1 ≠ p2 ++ s2 := by
  intro he
  have e1 := head_of_append c1 l1 p1 s1 h1
  have e2 := head_of_append c2 l2 p2 s2 h2
  rw [he, e2] at e1
  exact hne (Option.some.inj e1).symm

/-- A string with a concrete leading character, extended by anything, never
equals a literal starting with a different character. -/
theorem string_append_ne_lit (c1 c2 : Char) (l1 l2 : List Char)
    (p1 s1 p2 : String) (h1 : p1.data = c1 :: l1) (h2 : p2.data = c2 :: l2)
    (hne : c1 ≠ c2) : p1 ++ s1 ≠ p2 := by
  intro he
  have e1 := head_of_append c1 l1 p1 s1 h1
  rw [he, h2] at e1
  exact hne (Option.some.inj e1).symm

/-! ## Concrete worlds for witnesses and counterexamples -/

/-- A default all-succeeding oracle; individual scenarios override fields. -/
def baseW : World where
  env := fun _ => none
  cwd := "/build"
  spawn := fun _ _ _ => .ok 0
  fsExists := fun _ => true
  canonicalize := fun p => some p
  removeDirOk := true
  msbuildFound := true
  fetchOk := true
  urlLastSegment := some "libfsntfs-experimental-20190104.tar.gz"
  archiveCreateOk := true
  copyOk := true
  archiveOpenOk := true
  unpackOk := true
  unpackAdds := []
  bindgenOk := true
  writeBindingsOk := true
  walkEntries := []
  readFails := fun _ => false
  createFails := fun _ => false
  writeFails := fun _ => false

/-! ## C7: the sanitizer's output reads back as UTF-8 with the original
logical character content -/

/-- C7: for every header file the sanitizer is applied to, when the file's
bytes UTF-16LE-encode the logical character content `cs` — either BOM-led
(`FF FE` followed by the encoding of `cs`, the form the Windows generation
step produces) or bare (with `cs` not itself starting with U+FEFF, whose
encoding is indistinguishable from a BOM) — and the I/O oracles succeed,
`utf16le_to_utf8` rewrites the file to the UTF-8 encoding of `cs`, succeeds,
and reading the new bytes back as UTF-8 succeeds and yields exactly `cs`. -/
theorem c7_sanitizer_preserves_content (w : World)
    (files : String → Option (List Nat)) (file_path : String) (cs : List Nat)
    (hfile : files file_path = some (0xFF :: (0xFE :: utf16leEncode cs)) ∨
      (files file_path = some (utf16leEncode cs) ∧ cs.head? ≠ some 0xFEFF))
    (hscalar : ∀ c ∈ cs, IsScalar c)
    (hread : w.readFails file_path = false)
    (hcreate : w.createFails file_path = false)
    (hwrite : w.writeFails file_path = false) :
    (utf16le_to_utf8 w files file_path).1 file_path = some (utf8Encode cs) ∧
    (utf16le_to_utf8 w files file_path).2 = .ok () ∧
    utf8Decode (utf8Encode cs) = some cs := by
  have hdec : utf16leDecode (utf16leEncode cs) = cs := utf16leDecode_encode cs hscalar
  rcases hfile with hfile | ⟨hfile, hhead⟩
  · have hstrip := stripUtf16leBom_bom (utf16leEncode cs)
    refine ⟨?_, ?_, utf8Decode_encode cs hscalar⟩ <;>
      simp [utf16le_to_utf8, hfile, hread, hcreate, hwrite, hstrip, hdec]
  · have hstrip := stripUtf16leBom_encode cs hscalar hhead
    refine ⟨?_, ?_, utf8Decode_encode cs hscalar⟩ <;>
      simp [utf16le_to_utf8, hfile, hread, hcreate, hwrite, hstrip, hdec]

/-- Concrete file map for the C7 witness: one BOM-led UTF-16LE-encoded
header, as `autogen.ps1` produces. -/
def c7Files : String → Option (List Nat) :=
  fun p => if p == "/src/include/libbfio.h" then
    some (0xFF :: (0xFE :: utf16leEncode [104, 105])) else none

/-- Witness for C7 at a concrete BOM-led two-character file. -/
theorem c7_witness :
    (c7Files "/src/include/libbfio.h" =
        some (0xFF :: (0xFE :: utf16leEncode [104, 105])) ∨
      (c7Files "/src/include/libbfio.h" = some (utf16leEncode [104, 105]) ∧
        ([104, 105] : List Nat).head? ≠ some 0xFEFF)) ∧
    (∀ c ∈ [104, 105], IsScalar c) ∧
    baseW.readFails "/src/include/libbfio.h" = false ∧
    baseW.createFails "/src/include/libbfio.h" = false ∧
    baseW.writeFails "/src/include/libbfio.h" = false ∧
    ((utf16le_to_utf8 baseW c7Files "/src/include/libbfio.h").1 "/src/include/libbfio.h" =
        some (utf8Encode [104, 105]) ∧
      (utf16le_to_utf8 baseW c7Files "/src/include/libbfio.h").2 = .ok () ∧
      utf8Decode (utf8Encode [104, 105]) = some [104, 105]) :=
  ⟨Or.inl (by decide), by decide, rfl, rfl, rfl,
    c7_sanitizer_preserves_content baseW c7Files "/src/include/libbfio.h" [104, 105]
      (Or.inl (by decide)) (by decide) rfl rfl rfl⟩

/-! ## C10: no overwrite before a successful decode -/

/-- C10: when `utf16le_to_utf8` fails at the open or the read stage, it
returns the error with the file map unchanged — the destructive truncating
`File::create` has not happened, so the original bytes survive. -/
theorem c10_no_overwrite_on_early_error (w : World)
    (files : String → Option (List Nat)) (file_path : String)
    (h : files file_path = none ∨ w.readFails file_path = true) :
    (utf16le_to_utf8 w files file_path).1 = files ∧
    ∃ e, (utf16le_to_utf8 w files file_path).2 = .error e := by
  rcases h with h | h
  · unfold utf16le_to_utf8
    rw [h]
    exact ⟨rfl, "open failed", rfl⟩
  · unfold utf16le_to_utf8
    cases hf : files file_path with
    | none => exact ⟨rfl, "open failed", rfl⟩
    | some bytes =>
      rw [h]
      exact ⟨rfl, "read_to_string failed", rfl⟩

/-- Witness for C10: an absent file is reported without touching the map. -/
theorem c10_witness :
    ((fun _ => none : String → Option (List Nat)) "/src/common/types.h" = none ∨
      baseW.readFails "/src/common/types.h" = true) ∧
    ((utf16le_to_utf8 baseW (fun _ => none) "/src/common/types.h").1 =
        (fun _ => none : String → Option (List Nat)) ∧
      ∃ e, (utf16le_to_utf8 baseW (fun _ => none) "/src/common/types.h").2 = .error e) :=
  ⟨Or.inl rfl,
    c10_no_overwrite_on_early_error baseW (fun _ => none) "/src/common/types.h" (Or.inl rfl)⟩

/-! ## C5: acquirer idempotence -/

/-- C5: the Source Acquirer is idempotent.  (a) Whenever
`<OUT_DIR>/libfsntfs-20190104` already exists, `download_libfsntfs` returns
that path with an empty effect trace — in particular zero network fetches.
(b) On a working directory without it, with the fetch and extraction
succeeding and the archive containing the expected directory, the first
invocation performs exactly one fetch of the fixed URL and returns the
expected path, and a second invocation on the resulting filesystem performs
zero network calls and returns the same path. -/
theorem c5_acquirer_idempotent (w : World) (out_dir : String)
    (henv : w.env "OUT_DIR" = some out_dir) :
    (∀ fs : String → Bool, fs (pjoin out_dir LIBFSNTFS_EXPECTED_DIR_NAME) = true →
      (download_libfsntfs w fs).trace = [] ∧
      (download_libfsntfs w fs).fs = fs ∧
      (download_libfsntfs w fs).result = .ok (pjoin out_dir LIBFSNTFS_EXPECTED_DIR_NAME)) ∧
    (∀ fs : String → Bool, fs (pjoin out_dir LIBFSNTFS_EXPECTED_DIR_NAME) = false →
      w.fetchOk = true → w.archiveCreateOk = true → w.copyOk = true →
      w.archiveOpenOk = true → w.unpackOk = true →
      w.unpackAdds.contains (pjoin out_dir LIBFSNTFS_EXPECTED_DIR_NAME) = true →
      (download_libfsntfs w fs).trace =
        [.stdoutLine ("Downloading libfsntfs: from '" ++ LIBFSNTFS_TAR_GZ_URL ++ "'"),
         .fetch LIBFSNTFS_TAR_GZ_URL] ∧
      (download_libfsntfs w fs).result = .ok (pjoin out_dir LIBFSNTFS_EXPECTED_DIR_NAME) ∧
      (download_libfsntfs w (download_libfsntfs w fs).fs).trace = [] ∧
      (download_libfsntfs w (download_libfsntfs w fs).fs).result =
        .ok (pjoin out_dir LIBFSNTFS_EXPECTED_DIR_NAME)) := by
  constructor
  · intro fs hfs
    refine ⟨?_, ?_, ?_⟩ <;> simp [download_libfsntfs, henv, hfs]
  · intro fs hfs hfetch hcreate hcopy hopen hunpack hadd
    have hadd' : pjoin out_dir LIBFSNTFS_EXPECTED_DIR_NAME ∈ w.unpackAdds := by
      simpa using hadd
    refine ⟨?_, ?_, ?_, ?_⟩ <;>
      simp [download_libfsntfs, henv, hfs, hfetch, hcreate, hcopy, hopen,
        hunpack, hadd']

/-- World for the C5 witness: `OUT_DIR` set, archive contains the expected
directory. -/
def c5W : World :=
  { baseW with
    env := fun v => if v = "OUT_DIR" then some "/out" else none
    unpackAdds := [pjoin "/out" LIBFSNTFS_EXPECTED_DIR_NAME] }

/-- Witness for C5: a concrete empty working directory, one fetch on the
first run and none on the second. -/
theorem c5_witness :
    c5W.env "OUT_DIR" = some "/out" ∧
    ((fun _ => false : String → Bool) (pjoin "/out" LIBFSNTFS_EXPECTED_DIR_NAME) = false ∧
      c5W.fetchOk = true ∧ c5W.unpackAdds.contains (pjoin "/out" LIBFSNTFS_EXPECTED_DIR_NAME) = true) ∧
    ((download_libfsntfs c5W (fun _ => false)).trace =
        [.stdoutLine ("Downloading libfsntfs: from '" ++ LIBFSNTFS_TAR_GZ_URL ++ "'"),
         .fetch LIBFSNTFS_TAR_GZ_URL] ∧
      (download_libfsntfs c5W (fun _ => false)).result =
        .ok (pjoin "/out" LIBFSNTFS_EXPECTED_DIR_NAME) ∧
      (download_libfsntfs c5W (download_libfsntfs c5W (fun _ => false)).fs).trace = [] ∧
      (download_libfsntfs c5W (download_libfsntfs c5W (fun _ => false)).fs).result =
        .ok (pjoin "/out" LIBFSNTFS_EXPECTED_DIR_NAME)) :=
  ⟨rfl, ⟨rfl, rfl, by decide⟩,
    (c5_acquirer_idempotent c5W "/out" rfl).2 (fun _ => false) rfl rfl rfl rfl rfl rfl
      (by decide)⟩

/-! ## C6: libbfio static override scenario -/

/-- C6: on POSIX, with `LIBBFIO_STATIC_LIBPATH` set to `p` and the static
(`shared = false`) path taken, the coordinator runs the POSIX pipeline with
`--enable-shared=no` passed to configure, performs no network fetch (the
trace contains no fetch event), and on success returns `p/dist/include` as
the include directory. -/
theorem c6_static_override_posix (w : World) (p canon : String)
    (c1 c2 c3 c4 c5 : Nat)
    (henv : w.env "LIBBFIO_STATIC_LIBPATH" = some p)
    (h1 : w.spawn "sh" ["synclibs.sh"] p = .ok c1)
    (h2 : w.spawn "sh" ["autogen.sh"] p = .ok c2)
    (h3 : w.spawn "sh" ["configure", "--prefix=" ++ pjoin p "dist",
      "--enable-shared=no"] p = .ok c3)
    (h4 : w.spawn "make" [] p = .ok c4)
    (h5 : w.spawn "make" ["install"] p = .ok c5)
    (hfs : w.fsExists (pjoin (pjoin p "dist") "lib") = true)
    (hcanon : w.canonicalize (pjoin (pjoin p "dist") "lib") = some canon) :
    (bfio_build_and_link_static w).result = .ok (pjoin (pjoin p "dist") "include") ∧
    (bfio_build_and_link_static w).trace =
      [.stdoutLine "cargo:rustc-link-lib=static=bfio",
       .stdoutLine ("building with prefix=" ++ pjoin p "dist"),
       .proc "sh" ["synclibs.sh"] p,
       .proc "sh" ["autogen.sh"] p,
       .proc "sh" ["configure", "--prefix=" ++ pjoin p "dist", "--enable-shared=no"] p,
       .proc "make" [] p,
       .proc "make" ["install"] p,
       .stdoutLine ("cargo:rustc-link-search=native=" ++ canon)] ∧
    (∀ url, BuildEvent.fetch url ∉ (bfio_build_and_link_static w).trace) := by
  have hb : bfio_build_and_link_static w =
      ⟨[.stdoutLine "cargo:rustc-link-lib=static=bfio",
        .stdoutLine ("building with prefix=" ++ pjoin p "dist"),
        .proc "sh" ["synclibs.sh"] p,
        .proc "sh" ["autogen.sh"] p,
        .proc "sh" ["configure", "--prefix=" ++ pjoin p "dist", "--enable-shared=no"] p,
        .proc "make" [] p,
        .proc "make" ["install"] p,
        .stdoutLine ("cargo:rustc-link-search=native=" ++ canon)],
       .ok (pjoin (pjoin p "dist") "include")⟩ := by
    simp [bfio_build_and_link_static, bfio_build_lib, bfio_static_path, henv,
      h1, h2, h3, h4, h5, hfs, hcanon]
  rw [hb]
  refine ⟨rfl, rfl, ?_⟩
  intro url
  simp

/-- World for the C6 witness. -/
def c6W : World :=
  { baseW with
    env := fun v => if v = "LIBBFIO_STATIC_LIBPATH" then some "/opt/libbfio" else none }

/-- Witness for C6 at the override path `/opt/libbfio`. -/
theorem c6_witness :
    c6W.env "LIBBFIO_STATIC_LIBPATH" = some "/opt/libbfio" ∧
    c6W.spawn "sh" ["configure", "--prefix=" ++ pjoin "/opt/libbfio" "dist",
      "--enable-shared=no"] "/opt/libbfio" = .ok 0 ∧
    c6W.fsExists (pjoin (pjoin "/opt/libbfio" "dist") "lib") = true ∧
    ((bfio_build_and_link_static c6W).result =
        .ok (pjoin (pjoin "/opt/libbfio" "dist") "include") ∧
      (bfio_build_and_link_static c6W).trace =
        [.stdoutLine "cargo:rustc-link-lib=static=bfio",
         .stdoutLine ("building with prefix=" ++ pjoin "/opt/libbfio" "dist"),
         .proc "sh" ["synclibs.sh"] "/opt/libbfio",
         .proc "sh" ["autogen.sh"] "/opt/libbfio",
         .proc "sh" ["configure", "--prefix=" ++ pjoin "/opt/libbfio" "dist",
           "--enable-shared=no"] "/opt/libbfio",
         .proc "make" [] "/opt/libbfio",
         .proc "make" ["install"] "/opt/libbfio",
         .stdoutLine ("cargo:rustc-link-search=native=" ++
           pjoin (pjoin "/opt/libbfio" "dist") "lib")] ∧
      (∀ url, BuildEvent.fetch url ∉ (bfio_build_and_link_static c6W).trace)) :=
  ⟨by decide, rfl, rfl,
    c6_static_override_posix c6W "/opt/libbfio" (pjoin (pjoin "/opt/libbfio" "dist") "lib")
      0 0 0 0 0 (by decide) rfl rfl rfl rfl rfl rfl rfl⟩

/-! ## C4: which artifact directories are asserted -/

/-- World for the C4 counterexample: override set, `dist/lib` present but
`dist/include` absent. -/
def c4W : World :=
  { baseW with
    env := fun v => if v = "LIBFSNTFS_STATIC_LIBPATH" then some "/opt/libfsntfs" else none
    fsExists := fun p => p == pjoin (pjoin "/opt/libfsntfs" "dist") "lib" }

/-- Path-existence state for the C4 counterexample: only `dist/lib` exists;
in particular `dist/include` does not. -/
def c4Fs : String → Bool :=
  fun p => p == pjoin (pjoin "/opt/libfsntfs" "dist") "lib"

/-- Counterexample to C4 as stated: a build in which the public header
directory `dist/include` does not exist still completes successfully — the
header directory is never asserted, so its absence is not a fatal
`MissingArtifact` failure. -/
theorem c4_counterexample_include_never_checked :
    c4Fs (pjoin (pjoin "/opt/libfsntfs" "dist") "include") = false ∧
    (build_static c4W c4Fs).result = .ok () := by
  exact ⟨by decide, rfl⟩

/-- The fatal trace of a libfsntfs build whose `dist/lib` is missing:
every external step ran, and no cargo linker directive was emitted. -/
def fsntfsFailTrace (p : String) : List BuildEvent :=
  [.stdoutLine ("building with prefix=" ++ pjoin p "dist"),
   .proc "sh" ["configure", "--enable-shared=no", "--prefix=" ++ pjoin p "dist"] p,
   .proc "make" [] p,
   .proc "make" ["install"] p]

/-- No element of `fsntfsFailTrace p` is a cargo linker directive: neither
the `rustc-link-lib` line nor any `rustc-link-search` line occurs. -/
theorem fsntfsFailTrace_no_link_directive (p : String) :
    BuildEvent.stdoutLine "cargo:rustc-link-lib=static=fsntfs" ∉ fsntfsFailTrace p ∧
    ∀ s, BuildEvent.stdoutLine ("cargo:rustc-link-search=native=" ++ s) ∉
      fsntfsFailTrace p := by
  constructor
  · intro hmem
    simp only [fsntfsFailTrace, List.mem_cons, List.not_mem_nil, or_false,
      BuildEvent.stdoutLine.injEq] at hmem
    rcases hmem with hm | hm | hm | hm
    · exact string_append_ne_lit 'b' 'c' _ _ "building with prefix="
        (pjoin p "dist") "cargo:rustc-link-lib=static=fsntfs" rfl rfl
        (by decide) hm.symm
    all_goals cases hm
  · intro s hmem
    simp only [fsntfsFailTrace, List.mem_cons, List.not_mem_nil, or_false,
      BuildEvent.stdoutLine.injEq] at hmem
    rcases hmem with hm | hm | hm | hm
    · exact string_append_head_ne 'c' 'b' _ _ "cargo:rustc-link-search=native="
        "building with prefix=" s (pjoin p "dist") rfl rfl (by decide) hm
    all_goals cases hm

/-- C4 (amended): after every POSIX build the library search directory
`dist/lib` is asserted to exist, and its absence is a fatal failure raised
before any linker directive is emitted; the public header directory is never
checked.  Four parts: (a) libfsntfs `build_static` with the
`LIBFSNTFS_STATIC_LIBPATH` override pointing at a tree lacking `dist/lib`
fails with the missing-artifact message even though every process ran, its
trace is exactly the four pipeline steps, and it contains no linker
directive; (b) the same when the source tree is resolved by the acquirer
instead of the override; (c) libbfio `build_lib`, in either link mode, fails
the same way when `dist/lib` is missing, again without emitting its
link-search directive; (d) libbfio `build_lib` succeeds and returns
`dist/include` even when that directory does not exist — the header
directory is not an asserted artifact. -/
theorem c4_amended_lib_dir_asserted :
    (∀ (w : World) (p : String) (fs : String → Bool) (c1 c2 c3 : Nat),
      w.env "LIBFSNTFS_STATIC_LIBPATH" = some p →
      w.spawn "sh" ["configure", "--enable-shared=no",
        "--prefix=" ++ pjoin p "dist"] p = .ok c1 →
      w.spawn "make" [] p = .ok c2 →
      w.spawn "make" ["install"] p = .ok c3 →
      fs (pjoin (pjoin p "dist") "lib") = false →
      (build_static w fs).result =
        .error ("Expected " ++ pjoin (pjoin p "dist") "lib" ++ " to exist") ∧
      (build_static w fs).trace = fsntfsFailTrace p ∧
      BuildEvent.stdoutLine "cargo:rustc-link-lib=static=fsntfs" ∉
        (build_static w fs).trace ∧
      ∀ s, BuildEvent.stdoutLine ("cargo:rustc-link-search=native=" ++ s) ∉
        (build_static w fs).trace) ∧
    (∀ (w : World) (out_dir : String) (fs : String → Bool) (c1 c2 c3 : Nat),
      w.env "LIBFSNTFS_STATIC_LIBPATH" = none →
      w.env "OUT_DIR" = some out_dir →
      fs (pjoin out_dir LIBFSNTFS_EXPECTED_DIR_NAME) = true →
      w.spawn "sh" ["configure", "--enable-shared=no",
        "--prefix=" ++ pjoin (pjoin out_dir LIBFSNTFS_EXPECTED_DIR_NAME) "dist"]
        (pjoin out_dir LIBFSNTFS_EXPECTED_DIR_NAME) = .ok c1 →
      w.spawn "make" [] (pjoin out_dir LIBFSNTFS_EXPECTED_DIR_NAME) = .ok c2 →
      w.spawn "make" ["install"] (pjoin out_dir LIBFSNTFS_EXPECTED_DIR_NAME) = .ok c3 →
      fs (pjoin (pjoin (pjoin out_dir LIBFSNTFS_EXPECTED_DIR_NAME) "dist") "lib") = false →
      (build_static w fs).result =
        .error ("Expected " ++
          pjoin (pjoin (pjoin out_dir LIBFSNTFS_EXPECTED_DIR_NAME) "dist") "lib" ++
          " to exist") ∧
      (build_static w fs).trace =
        fsntfsFailTrace (pjoin out_dir LIBFSNTFS_EXPECTED_DIR_NAME) ∧
      BuildEvent.stdoutLine "cargo:rustc-link-lib=static=fsntfs" ∉
        (build_static w fs).trace ∧
      ∀ s, BuildEvent.stdoutLine ("cargo:rustc-link-search=native=" ++ s) ∉
        (build_static w fs).trace) ∧
    (∀ (w : World) (lib_path : String) (shared : Bool) (c1 c2 c3 c4 c5 : Nat),
      w.spawn "sh" ["synclibs.sh"] lib_path = .ok c1 →
      w.spawn "sh" ["autogen.sh"] lib_path = .ok c2 →
      w.spawn "sh" (["configure", "--prefix=" ++ pjoin lib_path "dist"] ++
        (if shared then [] else ["--enable-shared=no"])) lib_path = .ok c3 →
      w.spawn "make" [] lib_path = .ok c4 →
      w.spawn "make" ["install"] lib_path = .ok c5 →
      w.fsExists (pjoin (pjoin lib_path "dist") "lib") = false →
      (bfio_build_lib w lib_path shared).result =
        .error ("Expected " ++ pjoin (pjoin lib_path "dist") "lib" ++ " to exist") ∧
      ∀ s, BuildEvent.stdoutLine ("cargo:rustc-link-search=native=" ++ s) ∉
        (bfio_build_lib w lib_path shared).trace) ∧
    (∀ (w : World) (lib_path canon : String) (shared : Bool) (c1 c2 c3 c4 c5 : Nat),
      w.spawn "sh" ["synclibs.sh"] lib_path = .ok c1 →
      w.spawn "sh" ["autogen.sh"] lib_path = .ok c2 →
      w.spawn "sh" (["configure", "--prefix=" ++ pjoin lib_path "dist"] ++
        (if shared then [] else ["--enable-shared=no"])) lib_path = .ok c3 →
      w.spawn "make" [] lib_path = .ok c4 →
      w.spawn "make" ["install"] lib_path = .ok c5 →
      w.fsExists (pjoin (pjoin lib_path "dist") "lib") = true →
      w.canonicalize (pjoin (pjoin lib_path "dist") "lib") = some canon →
      w.fsExists (pjoin (pjoin lib_path "dist") "include") = false →
      (bfio_build_lib w lib_path shared).result =
        .ok (pjoin (pjoin lib_path "dist") "include")) := by
  refine ⟨?_, ?_, ?_, ?_⟩
  · intro w p fs c1 c2 c3 henv h1 h2 h3 hlib
    have htr : (build_static w fs).trace = fsntfsFailTrace p := by
      simp [build_static, build_static_from, fsntfsFailTrace, henv, h1, h2, h3, hlib]
    refine ⟨?_, htr, ?_, ?_⟩
    · simp [build_static, build_static_from, henv, h1, h2, h3, hlib]
    · rw [htr]
      exact (fsntfsFailTrace_no_link_directive p).1
    · rw [htr]
      exact (fsntfsFailTrace_no_link_directive p).2
  · intro w out_dir fs c1 c2 c3 henv1 henv2 hcache h1 h2 h3 hlib
    have htr : (build_static w fs).trace =
        fsntfsFailTrace (pjoin out_dir LIBFSNTFS_EXPECTED_DIR_NAME) := by
      simp [build_static, download_libfsntfs, build_static_from, fsntfsFailTrace,
        henv1, henv2, hcache, h1, h2, h3, hlib]
    refine ⟨?_, htr, ?_, ?_⟩
    · simp [build_static, download_libfsntfs, build_static_from,
        henv1, henv2, hcache, h1, h2, h3, hlib]
    · rw [htr]
      exact (fsntfsFailTrace_no_link_directive _).1
    · rw [htr]
      exact (fsntfsFailTrace_no_link_directive _).2
  · intro w lib_path shared c1 c2 c3 c4 c5 h1 h2 h3 h4 h5 hlib
    have h3' : w.spawn "sh" ("configure" :: ("--prefix=" ++ pjoin lib_path "dist") ::
        (if shared then [] else ["--enable-shared=no"])) lib_path = .ok c3 := by
      simpa using h3
    have htr : (bfio_build_lib w lib_path shared).trace =
        [.stdoutLine ("building with prefix=" ++ pjoin lib_path "dist"),
         .proc "sh" ["synclibs.sh"] lib_path,
         .proc "sh" ["autogen.sh"] lib_path,
         .proc "sh" (["configure", "--prefix=" ++ pjoin lib_path "dist"] ++
           (if shared then [] else ["--enable-shared=no"])) lib_path,
         .proc "make" [] lib_path,
         .proc "make" ["install"] lib_path] := by
      simp [bfio_build_lib, h1, h2, h3', h4, h5, hlib]
    refine ⟨?_, ?_⟩
    · simp [bfio_build_lib, h1, h2, h3', h4, h5, hlib]
    · intro s hmem
      rw [htr] at hmem
      simp only [List.mem_cons, List.not_mem_nil, or_false,
        BuildEvent.stdoutLine.injEq] at hmem
      rcases hmem with hm | hm | hm | hm | hm | hm
      · exact string_append_head_ne 'c' 'b' _ _ "cargo:rustc-link-search=native="
          "building with prefix=" s (pjoin lib_path "dist") rfl rfl (by decide) hm
      all_goals cases hm
  · intro w lib_path canon shared c1 c2 c3 c4 c5 h1 h2 h3 h4 h5 hlib hcanon hinc
    have h3' : w.spawn "sh" ("configure" :: ("--prefix=" ++ pjoin lib_path "dist") ::
        (if shared then [] else ["--enable-shared=no"])) lib_path = .ok c3 := by
      simpa using h3
    simp [bfio_build_lib, h1, h2, h3', h4, h5, hlib, hcanon]

/-- Witness for the amended C4, part (a): an override path with no `lib`
subdirectory fails fatally with no linker directive emitted. -/
theorem c4_amended_witness :
    c4W.env "LIBFSNTFS_STATIC_LIBPATH" = some "/opt/libfsntfs" ∧
    (fun _ => false : String → Bool) (pjoin (pjoin "/opt/libfsntfs" "dist") "lib") = false ∧
    ((build_static c4W (fun _ => false)).result =
        .error ("Expected " ++ pjoin (pjoin "/opt/libfsntfs" "dist") "lib" ++ " to exist") ∧
      (build_static c4W (fun _ => false)).trace = fsntfsFailTrace "/opt/libfsntfs") :=
  ⟨by decide, rfl,
    (c4_amended_lib_dir_asserted.1 c4W "/opt/libfsntfs" (fun _ => false) 0 0 0
      (by decide) rfl rfl rfl rfl).1,
    (c4_amended_lib_dir_asserted.1 c4W "/opt/libfsntfs" (fun _ => false) 0 0 0
      (by decide) rfl rfl rfl rfl).2.1⟩

/-! ## Shared concrete world for the libfsntfs coordinator scenarios -/

/-- World with the libfsntfs override and `OUT_DIR` set and every external
step succeeding. -/
def fsntW : World :=
  { baseW with
    env := fun v => if v = "LIBFSNTFS_STATIC_LIBPATH" then some "/opt/libfsntfs"
      else if v = "OUT_DIR" then some "/out" else none }

/-- Path-existence state in which the built `dist/lib` exists. -/
def fsntFs : String → Bool :=
  fun p => p == pjoin (pjoin "/opt/libfsntfs" "dist") "lib"

/-! ## C3: position of binding generation -/

/-- Counterexample to C3 as stated: in a run of the libfsntfs Build
Coordinator, binding generation is the very first effect — it happens
*before* the Toolchain Driver runs (the configure invocation appears later in
the trace), and its include arguments are the hard-coded relative paths, not
a directory produced by the build. -/
theorem c3_counterexample_fsntfs_bindgen_first :
    (libfsntfs_main fsntW fsntFs ["dynamic_link"]).trace.head? =
      some (.genBindings fsntfsClangArgs "wrapper.h") ∧
    (libfsntfs_main fsntW fsntFs ["dynamic_link"]).trace.get? 4 =
      some (.proc "sh" ["configure", "--enable-shared=no",
        "--prefix=" ++ pjoin "/opt/libfsntfs" "dist"] "/opt/libfsntfs") := by
  decide

/-- C3 (amended): in the libbfio coordinator the claim holds — binding
generation happens only after the build pipeline has completed, and the
include argument passed to bindgen is exactly `-I` followed by the include
directory the pipeline returned (`<source>/dist/include`); the libfsntfs
coordinator instead generates bindings first, with fixed include paths.
This theorem proves the libbfio half, for both link modes. -/
theorem c3_amended_bfio_bindgen_after_build :
    (∀ (w : World) (feats : List String) (out_dir canon : String)
      (c1 c2 c3 c4 c5 : Nat),
      feats.contains "static_link" = true →
      w.env "OUT_DIR" = some out_dir →
      w.bindgenOk = true → w.writeBindingsOk = true →
      w.spawn "sh" ["synclibs.sh"] (bfio_static_path w) = .ok c1 →
      w.spawn "sh" ["autogen.sh"] (bfio_static_path w) = .ok c2 →
      w.spawn "sh" ["configure", "--prefix=" ++ pjoin (bfio_static_path w) "dist",
        "--enable-shared=no"] (bfio_static_path w) = .ok c3 →
      w.spawn "make" [] (bfio_static_path w) = .ok c4 →
      w.spawn "make" ["install"] (bfio_static_path w) = .ok c5 →
      w.fsExists (pjoin (pjoin (bfio_static_path w) "dist") "lib") = true →
      w.canonicalize (pjoin (pjoin (bfio_static_path w) "dist") "lib") = some canon →
      (bfio_main w feats).trace =
        [.stdoutLine "Building static bindings",
         .stdoutLine "cargo:rustc-link-lib=static=bfio",
         .stdoutLine ("building with prefix=" ++ pjoin (bfio_static_path w) "dist"),
         .proc "sh" ["synclibs.sh"] (bfio_static_path w),
         .proc "sh" ["autogen.sh"] (bfio_static_path w),
         .proc "sh" ["configure", "--prefix=" ++ pjoin (bfio_static_path w) "dist",
           "--enable-shared=no"] (bfio_static_path w),
         .proc "make" [] (bfio_static_path w),
         .proc "make" ["install"] (bfio_static_path w),
         .stdoutLine ("cargo:rustc-link-search=native=" ++ canon),
         .genBindings ["-I" ++ pjoin (pjoin (bfio_static_path w) "dist") "include"]
           "wrapper.h",
         .writeBindingsFile (pjoin out_dir "bindings.rs")] ∧
      (bfio_main w feats).result = .ok ()) ∧
    (∀ (w : World) (feats : List String) (out_dir canon : String)
      (c1 c2 c3 c4 c5 : Nat),
      feats.contains "static_link" = false →
      w.env "OUT_DIR" = some out_dir →
      w.bindgenOk = true → w.writeBindingsOk = true →
      w.spawn "sh" ["synclibs.sh"] (bfio_dynamic_path w) = .ok c1 →
      w.spawn "sh" ["autogen.sh"] (bfio_dynamic_path w) = .ok c2 →
      w.spawn "sh" ["configure", "--prefix=" ++ pjoin (bfio_dynamic_path w) "dist"]
        (bfio_dynamic_path w) = .ok c3 →
      w.spawn "make" [] (bfio_dynamic_path w) = .ok c4 →
      w.spawn "make" ["install"] (bfio_dynamic_path w) = .ok c5 →
      w.fsExists (pjoin (pjoin (bfio_dynamic_path w) "dist") "lib") = true →
      w.canonicalize (pjoin (pjoin (bfio_dynamic_path w) "dist") "lib") = some canon →
      (bfio_main w feats).trace =
        [.stdoutLine "Building dynamic bindings",
         .stdoutLine "cargo:rustc-link-lib=dylib=bfio",
         .stdoutLine ("building with prefix=" ++ pjoin (bfio_dynamic_path w) "dist"),
         .proc "sh" ["synclibs.sh"] (bfio_dynamic_path w),
         .proc "sh" ["autogen.sh"] (bfio_dynamic_path w),
         .proc "sh" ["configure", "--prefix=" ++ pjoin (bfio_dynamic_path w) "dist"]
           (bfio_dynamic_path w),
         .proc "make" [] (bfio_dynamic_path w),
         .proc "make" ["install"] (bfio_dynamic_path w),
         .stdoutLine ("cargo:rustc-link-search=native=" ++ canon),
         .genBindings ["-I" ++ pjoin (pjoin (bfio_dynamic_path w) "dist") "include"]
           "wrapper.h",
         .writeBindingsFile (pjoin out_dir "bindings.rs")] ∧
      (bfio_main w feats).result = .ok ()) := by
  constructor
  · intro w feats out_dir canon c1 c2 c3 c4 c5 hfeat henv hbind hwrite
      h1 h2 h3 h4 h5 hfs hcanon
    have hfeat' : "static_link" ∈ feats := by simpa using hfeat
    constructor <;>
      simp [bfio_main, bfio_build_and_link_static, bfio_build_lib, hfeat', henv,
        hbind, hwrite, h1, h2, h3, h4, h5, hfs, hcanon]
  · intro w feats out_dir canon c1 c2 c3 c4 c5 hfeat henv hbind hwrite
      h1 h2 h3 h4 h5 hfs hcanon
    have hfeat' : "static_link" ∉ feats := by
      simpa using hfeat
    constructor <;>
      simp [bfio_main, bfio_build_and_link_dynamic, bfio_build_lib, hfeat', henv,
        hbind, hwrite, h1, h2, h3, h4, h5, hfs, hcanon]

/-- World for the C3 witness: libbfio override and `OUT_DIR` set. -/
def c3W : World :=
  { baseW with
    env := fun v => if v = "LIBBFIO_STATIC_LIBPATH" then some "/opt/libbfio"
      else if v = "OUT_DIR" then some "/out" else none }

/-- Witness for the amended C3 on the static branch at a concrete world. -/
theorem c3_amended_witness :
    (["static_link"] : List String).contains "static_link" = true ∧
    c3W.env "OUT_DIR" = some "/out" ∧
    ((bfio_main c3W ["static_link"]).trace =
      [.stdoutLine "Building static bindings",
       .stdoutLine "cargo:rustc-link-lib=static=bfio",
       .stdoutLine ("building with prefix=" ++ pjoin (bfio_static_path c3W) "dist"),
       .proc "sh" ["synclibs.sh"] (bfio_static_path c3W),
       .proc "sh" ["autogen.sh"] (bfio_static_path c3W),
       .proc "sh" ["configure", "--prefix=" ++ pjoin (bfio_static_path c3W) "dist",
         "--enable-shared=no"] (bfio_static_path c3W),
       .proc "make" [] (bfio_static_path c3W),
       .proc "make" ["install"] (bfio_static_path c3W),
       .stdoutLine ("cargo:rustc-link-search=native=" ++
         pjoin (pjoin (bfio_static_path c3W) "dist") "lib"),
       .genBindings ["-I" ++ pjoin (pjoin (bfio_static_path c3W) "dist") "include"]
         "wrapper.h",
       .writeBindingsFile (pjoin "/out" "bindings.rs")] ∧
      (bfio_main c3W ["static_link"]).result = .ok ()) :=
  ⟨by decide, by decide,
    (c3_amended_bfio_bindgen_after_build.1 c3W ["static_link"] "/out"
      (pjoin (pjoin (bfio_static_path c3W) "dist") "lib") 0 0 0 0 0
      (by decide) (by decide) rfl rfl rfl rfl rfl rfl rfl rfl rfl)⟩

/-! ## C1: a non-zero exit status does not abort the pipeline -/

/-- World in which `make` runs but exits with status 2 and every other
process succeeds. -/
def c1W : World :=
  { fsntW with
    spawn := fun prog args _ =>
      if prog = "make" ∧ args = ([] : List String) then .ok 2 else .ok 0 }

/-- C1, evaluated at the failing input: in the libfsntfs pipeline the `make`
step runs and exits with the non-zero status 2, yet the pipeline does not
abort — `make install` is still invoked and the build completes
successfully.  `Command::status()` only errors when the spawn fails, and the
scripts never inspect the exit status, so a failing compile step does not
stop the install step. -/
theorem c1_make_nonzero_exit_still_installs :
    c1W.spawn "make" [] "/opt/libfsntfs" = .ok 2 ∧
    BuildEvent.proc "make" ["install"] "/opt/libfsntfs" ∈
      (build_static c1W fsntFs).trace ∧
    (build_static c1W fsntFs).result = .ok () :=
  ⟨by decide, by decide, rfl⟩

/-! ## C2: feature flag vs link mode -/

/-- C2, evaluated at the failing input: the libfsntfs coordinator checks the
`dynamic_link` feature, and enabling it runs the *static* build-and-link
path (the `static=fsntfs` directive is emitted, no `dylib=fsntfs`
directive), while leaving it unset runs the dynamic path.  The flag value
does not map to the link mode of the same name. -/
theorem c2_dynamic_link_feature_runs_static_path :
    (["dynamic_link"] : List String).contains "static_link" = false ∧
    BuildEvent.stdoutLine "cargo:rustc-link-lib=static=fsntfs" ∈
      (libfsntfs_main fsntW fsntFs ["dynamic_link"]).trace ∧
    BuildEvent.stdoutLine "cargo:rustc-link-lib=dylib=fsntfs" ∉
      (libfsntfs_main fsntW fsntFs ["dynamic_link"]).trace ∧
    BuildEvent.stdoutLine "cargo:rustc-link-lib=dylib=fsntfs" ∈
      (libfsntfs_main fsntW fsntFs []).trace := by
  decide

/-! ## C8: converter spawn-failure errors -/

/-- World for the C8 counterexample, converter spawn failing with
`NotFound`: the python override is supplied through `PYTHON_SYS_EXECUTABLE`
(the documented name, which `common-build` reads), `TARGET` is set, and
spawning `python.exe` fails. -/
def c8Wnf : World :=
  { baseW with
    env := fun v => if v = "PYTHON_SYS_EXECUTABLE" then some "/usr/bin/python3"
      else if v = "TARGET" then some "x86_64-pc-windows-msvc" else none
    spawn := fun prog _ _ => if prog = "python.exe" then .err .notFound else .ok 0 }

/-- Same world with the converter spawn failing for a reason other than
`NotFound`. -/
def c8Wother : World :=
  { c8Wnf with
    spawn := fun prog _ _ => if prog = "python.exe" then .err .other else .ok 0 }

/-- Counterexample to C8 as stated: in the libbfio-sys Windows pipeline the
interpreter-not-found spawn failure produces *exactly the same* error as any
other spawn failure — one generic `.expect` message — so the distinct,
more actionable error does not exist there.  Moreover the override is read
from the misspelled variable `"PYTHON_SYS_EXECUTABLE "` (trailing space):
with the real `PYTHON_SYS_EXECUTABLE` set to `/usr/bin/python3`, the
pipeline still spawns the default `python.exe`. -/
theorem c8_counterexample_bfio_error_not_distinct :
    c8Wnf.env "PYTHON_SYS_EXECUTABLE" = some "/usr/bin/python3" ∧
    c8Wnf.env "PYTHON_SYS_EXECUTABLE " = none ∧
    c8Wnf.spawn "python.exe" (convertArgs "libbfio") "/src/libbfio" = .err .notFound ∧
    c8Wother.spawn "python.exe" (convertArgs "libbfio") "/src/libbfio" = .err .other ∧
    BuildEvent.proc "python.exe" (convertArgs "libbfio") "/src/libbfio" ∈
      (bfio_build_lib_windows c8Wnf (fun _ => none) "/src/libbfio" false).trace ∧
    (bfio_build_lib_windows c8Wnf (fun _ => none) "/src/libbfio" false).result =
      (bfio_build_lib_windows c8Wother (fun _ => none) "/src/libbfio" false).result ∧
    (bfio_build_lib_windows c8Wnf (fun _ => none) "/src/libbfio" false).result =
      .error ("Converting the solution failed. You might need to set " ++
        "PYTHON_SYS_EXECUTABLE to a working python interpreter") :=
  ⟨by decide, by decide, by decide, by decide, by decide, rfl, rfl⟩

/-- C8 (amended): in the `common-build` Windows pipeline the interpreter is
located via `PYTHON_SYS_EXECUTABLE` and a `NotFound` spawn failure of the
converter produces a distinct, more actionable error naming the interpreter
and the override variable, different from the generic conversion-failure
error used for other spawn failures; in the libbfio-sys Windows pipeline
every converter spawn failure yields one generic message. -/
theorem c8_amended_convert_error_distinction :
    (∀ (w : World) (files : String → Option (List Nat)) (lib_path pexec : String)
      (shared : Bool) (c1 c2 : Nat),
      w.env "PYTHON_SYS_EXECUTABLE" = some pexec →
      w.spawn "powershell" ["-File", "synclibs.ps1"] lib_path = .ok c1 →
      w.spawn "powershell" ["-File", "autogen.ps1"] lib_path = .ok c2 →
      w.spawn pexec (convertArgs (fileName lib_path)) lib_path = .err .notFound →
      (common_build_lib w files lib_path shared).result =
        .error ("Could not find python at " ++ pexec ++
          ", You might need to set PYTHON_SYS_EXECUTABLE: " ++ ioErrDebug .notFound)) ∧
    (∀ (w : World) (files : String → Option (List Nat)) (lib_path pexec : String)
      (shared : Bool) (c1 c2 : Nat),
      w.env "PYTHON_SYS_EXECUTABLE" = some pexec →
      w.spawn "powershell" ["-File", "synclibs.ps1"] lib_path = .ok c1 →
      w.spawn "powershell" ["-File", "autogen.ps1"] lib_path = .ok c2 →
      w.spawn pexec (convertArgs (fileName lib_path)) lib_path = .err .other →
      (common_build_lib w files lib_path shared).result =
        .error ("Failed to convert the solution: " ++ ioErrDebug .other)) ∧
    (∀ a b : String,
      ("Could not find python at " ++ a) ≠ ("Failed to convert the solution: " ++ b)) ∧
    (∀ (w : World) (files : String → Option (List Nat)) (lib_path pexec : String)
      (shared : Bool) (c1 c2 : Nat) (k : ErrKind),
      w.env "PYTHON_SYS_EXECUTABLE " = some pexec →
      w.removeDirOk = true →
      w.spawn "powershell" ["-File", "synclibs.ps1"] lib_path = .ok c1 →
      w.spawn "powershell" ["-File", "autogen.ps1"] lib_path = .ok c2 →
      w.spawn pexec (convertArgs (fileName lib_path)) lib_path = .err k →
      (bfio_build_lib_windows w files lib_path shared).result =
        .error ("Converting the solution failed. You might need to set " ++
          "PYTHON_SYS_EXECUTABLE to a working python interpreter")) := by
  refine ⟨?_, ?_, ?_, ?_⟩
  · intro w files lib_path pexec shared c1 c2 henv h1 h2 hconv
    simp [common_build_lib, henv, h1, h2, hconv]
  · intro w files lib_path pexec shared c1 c2 henv h1 h2 hconv
    simp [common_build_lib, henv, h1, h2, hconv, ioErrDebug]
  · intro a b
    obtain ⟨la⟩ := a
    obtain ⟨lb⟩ := b
    intro he
    have hC : ("Could not find python at " ++ String.mk la).data.head? =
        some 'C' := rfl
    have hF : ("Failed to convert the solution: " ++ String.mk lb).data.head? =
        some 'F' := rfl
    rw [he, hF] at hC
    exact absurd hC (by decide)
  · intro w files lib_path pexec shared c1 c2 k henv hrm h1 h2 hconv
    simp [bfio_build_lib_windows, henv, hrm, h1, h2, hconv]

/-- World for the C8 witness: `common-build` pipeline, interpreter missing. -/
def c8Wcommon : World :=
  { baseW with
    env := fun v => if v = "PYTHON_SYS_EXECUTABLE" then some "python3.exe" else none
    spawn := fun prog _ _ => if prog = "python3.exe" then .err .notFound else .ok 0 }

/-- Witness for the amended C8: the `common-build` not-found error at a
concrete world, naming the configured interpreter. -/
theorem c8_amended_witness :
    c8Wcommon.env "PYTHON_SYS_EXECUTABLE" = some "python3.exe" ∧
    c8Wcommon.spawn "python3.exe" (convertArgs (fileName "/src/libbfio"))
      "/src/libbfio" = .err .notFound ∧
    (common_build_lib c8Wcommon (fun _ => none) "/src/libbfio" false).result =
      .error ("Could not find python at " ++ "python3.exe" ++
        ", You might need to set PYTHON_SYS_EXECUTABLE: " ++ ioErrDebug .notFound) :=
  ⟨by decide, by decide,
    c8_amended_convert_error_distinction.1 c8Wcommon (fun _ => none) "/src/libbfio"
      "python3.exe" false 0 0 (by decide) rfl rfl (by decide)⟩

/-! ## C9: stale project-directory deletion -/

/-- World in which `remove_dir_all(vs2015)` fails (the directory does not
exist — a first build) and everything else succeeds. -/
def c9W : World :=
  { baseW with
    removeDirOk := false
    env := fun v => if v = "TARGET" then some "x86_64-pc-windows-msvc" else none }

/-- C9, evaluated at the failing input: in the libbfio-sys Windows pipeline
the deletion of the stale `vs2015` directory is `.unwrap()`ed, so when the
directory does not exist the pipeline panics immediately after the deletion
attempt and the conversion step is never reached; in the `common-build`
pipeline the same failure is ignored (`let _ =`) and the pipeline continues
through conversion to completion. -/
theorem c9_bfio_unwrap_aborts_common_continues :
    c9W.removeDirOk = false ∧
    (bfio_build_lib_windows c9W (fun _ => none) "/src/libbfio" false).trace =
      [.proc "powershell" ["-File", "synclibs.ps1"] "/src/libbfio",
       .proc "powershell" ["-File", "autogen.ps1"] "/src/libbfio",
       .removeDir (pjoin "/src/libbfio" "vs2015")] ∧
    (bfio_build_lib_windows c9W (fun _ => none) "/src/libbfio" false).result =
      .error "remove_dir_all(vs2015) unwrap failed" ∧
    BuildEvent.proc "python.exe" (convertArgs "libbfio") "/src/libbfio" ∈
      (common_build_lib c9W (fun _ => none) "/src/libbfio" false).trace ∧
    (common_build_lib c9W (fun _ => none) "/src/libbfio" false).result =
      .ok (pjoin "/src/libbfio" "include") :=
  ⟨rfl, by decide, rfl, by decide, rfl⟩

end LibyalBuild
